import Mathlib

/-!
Verification of the RetroTrack inefficiency-detection and cost-aggregation
pipeline: a shallow embedding of the functions in app/helpers/file_parser.py,
app/helpers/geoapify.py, app/helpers/report_utils.py, app/upload_routes.py
and app/inefficient_routes.py, together with theorems about the behaviour
claimed in the specification.

Datetimes are modelled as rational numbers of hours since a fixed epoch, so
that a difference of two datetimes in hours is a plain subtraction.  Python
floats are modelled as rationals.  Python exceptions around the external HTTP
calls are modelled by explicit response constructors (netErr for a raised
request, a body of none for a payload whose json parse raises), and the
try/except blocks of the source become the corresponding match arms.
-/

namespace RetroTrack

/-- A spreadsheet cell as pandas presents it to parse_excel: a null cell
(NaN: an empty cell, or a cell whose column is absent), a numeric cell,
a text cell, or a datetime cell. -/
inductive Cell where
  | null
  | num (q : ℚ)
  | txt (s : String)
  | time (t : ℚ)
deriving DecidableEq, Repr

/-- Numeric value of a list of decimal digits. -/
def digitsVal (l : List Char) : ℕ :=
  l.foldl (fun n c => 10 * n + (c.toNat - 48)) 0

/-- Parse an unsigned decimal literal, digits with an optional fractional
part, the plain decimal forms Python float() accepts from spreadsheet text. -/
def parseUnsigned (l : List Char) : Option ℚ :=
  let ip := l.takeWhile Char.isDigit
  let rest := l.dropWhile Char.isDigit
  match rest with
  | [] => if ip.isEmpty then Option.none else some ((digitsVal ip : ℚ))
  | c :: frac =>
    if c = '.' ∧ frac.all Char.isDigit ∧ (ip ≠ [] ∨ frac ≠ []) then
      some ((digitsVal ip : ℚ) + (digitsVal frac : ℚ) / (10 : ℚ) ^ frac.length)
    else Option.none

/-- Python float(s) on an already stripped string, for decimal literals. -/
def pyFloat (s : String) : Option ℚ :=
  match s.toList with
  | '-' :: rest => (parseUnsigned rest).map (fun q => -q)
  | '+' :: rest => parseUnsigned rest
  | l => parseUnsigned l

/-- str(value).replace(",", "") from to_float. -/
def stripCommas (s : String) : String :=
  (s.toList.filter (fun c => c ≠ ',')).asString

/-- Python str.strip() and the pandas str.strip() applied to column names:
drop whitespace from both ends. -/
def pyStrip (s : String) : String :=
  (((s.toList.dropWhile Char.isWhitespace).reverse.dropWhile
      Char.isWhitespace).reverse).asString

/-- to_float (file_parser.py lines 56-60): float(str(value).replace(",", "").strip()),
returning None when the conversion raises.  A float round-trips through str, a
datetime never parses as a float.  A null cell reaches to_float only behind the
isnull guard of parse_excel, so that case is unreachable in the modelled paths. -/
def to_float (c : Cell) : Option ℚ :=
  match c with
  | Cell.num q => some q
  | Cell.txt s => pyFloat (pyStrip (stripCommas s))
  | Cell.time _ => Option.none
  | Cell.null => Option.none

/-- Python str() on a cell value, used for the two address fields. -/
def pyStr : Cell → String
  | Cell.txt s => s
  | Cell.num q => toString q
  | Cell.time t => toString t
  | Cell.null => "nan"

/-- One entry of the inefficient_routes list built by parse_excel
(file_parser.py lines 38-48). -/
structure Route where
  base_address : String
  shipping_address : String
  starting_time : ℚ
  expected_delivery_time : ℚ
  actual_delivery_time : ℚ
  expected_delivery_cost : ℚ
  actual_delivery_cost : ℚ
  max_delivery_cost : ℚ
  delay_hours : ℚ
deriving DecidableEq, Repr

/-- A data row of one sheet: column name to cell value. -/
abbrev Row := List (String × Cell)

/-- row(col) after df.columns.str.strip(): keys are matched after trimming
whitespace from the column name. -/
def rowGet (row : Row) (c : String) : Cell :=
  match row.find? (fun p => pyStrip p.fst == c) with
  | some p => p.snd
  | Option.none => Cell.null

/-- One sheet of the workbook. -/
structure Sheet where
  cols : List String
  rows : List Row

/-- The input to parse_excel: pd.ExcelFile either raises (unreadable input)
or yields a list of sheets. -/
inductive ExcelInput where
  | unreadable
  | workbook (sheets : List Sheet)

/-- The required column set of parse_excel (file_parser.py lines 7-12). -/
def required_cols : List String :=
  ["Base Address", "Shipping Address", "Starting Time",
   "Expected Delivery Time (hours)", "Actual Delivery Time (hours)",
   "Expected Delivery Cost (VND)", "Actual Delivery Cost (VND)",
   "Max Delivery Cost (VND/hr)"]

/-- set(required_cols).issubset(df.columns) after stripping the column names. -/
def colsOk (s : Sheet) : Bool :=
  required_cols.all (fun c => (s.cols.map pyStrip).contains c)

/-- Outcome of the per-row body of parse_excel: the row is silently skipped,
kept as a route, or raises (err), which happens exactly when the delay check
passed but the Starting Time cell is not a datetime, so that
st + timedelta(hours=...) raises a TypeError caught by the outer except. -/
inductive RowResult where
  | skip
  | keep (r : Route)
  | err
deriving DecidableEq, Repr

/-- The per-row loop body of parse_excel (file_parser.py lines 21-49):
skip the row when any required cell is null; parse the two hour fields and
skip on failure; keep the row only when the delay exceeds 24 hours and the
three cost fields parse; resolve the two delivery times as offsets from the
Starting Time cell. -/
def processRow (row : Row) : RowResult :=
  if required_cols.any (fun c => rowGet row c == Cell.null) then RowResult.skip
  else
    match to_float (rowGet row "Expected Delivery Time (hours)"),
          to_float (rowGet row "Actual Delivery Time (hours)") with
    | some exp_h, some act_h =>
      if 24 < act_h - exp_h then
        match rowGet row "Starting Time" with
        | Cell.time st =>
          match to_float (rowGet row "Expected Delivery Cost (VND)"),
                to_float (rowGet row "Actual Delivery Cost (VND)"),
                to_float (rowGet row "Max Delivery Cost (VND/hr)") with
          | some ec, some ac, some mc =>
            RowResult.keep {
              base_address := pyStr (rowGet row "Base Address"),
              shipping_address := pyStr (rowGet row "Shipping Address"),
              starting_time := st,
              expected_delivery_time := st + exp_h,
              actual_delivery_time := st + act_h,
              expected_delivery_cost := ec,
              actual_delivery_cost := ac,
              max_delivery_cost := mc,
              delay_hours := act_h - exp_h }
          | _, _, _ => RowResult.skip
        | _ => RowResult.err
      else RowResult.skip
    | _, _ => RowResult.skip

/-- The row loop of one sheet; the boolean is true when a row raised, in which
case control passes to the outer except with the routes accumulated so far. -/
def processRows : List Row → List Route → List Route × Bool
  | [], acc => (acc, false)
  | row :: rest, acc =>
    match processRow row with
    | RowResult.skip => processRows rest acc
    | RowResult.keep r => processRows rest (acc ++ [r])
    | RowResult.err => (acc, true)

/-- The sheet loop of parse_excel: a sheet lacking the required column set is
skipped; a raising row stops the whole parse with the accumulated routes. -/
def processSheets : List Sheet → List Route → List Route
  | [], acc => acc
  | s :: rest, acc =>
    if colsOk s then
      match processRows s.rows acc with
      | (acc2, true) => acc2
      | (acc2, false) => processSheets rest acc2
    else processSheets rest acc

/-- The dictionary parse_excel returns. -/
structure ParseResult where
  inefficient_routes : List Route
deriving DecidableEq, Repr

/-- parse_excel (file_parser.py lines 6-53).  The whole body is wrapped in a
try/except that returns the accumulated result instead of raising: an
unreadable file, where pd.ExcelFile raises at once, yields the empty result. -/
def parse_excel : ExcelInput → ParseResult
  | ExcelInput.unreadable => ⟨[]⟩
  | ExcelInput.workbook sheets => ⟨processSheets sheets []⟩

/-- One entry of the results list of a geocode response. -/
structure GeoEntry where
  lat : Option ℚ
  lon : Option ℚ
deriving DecidableEq, Repr

/-- Outcome of the geocode HTTP call: netErr models requests.get raising; resp
carries the status code and the decoded results list, where a body of none
models a payload on which resp.json() raises, and a missing or empty results
key is the empty list. -/
inductive GeoResp where
  | netErr
  | resp (status : ℕ) (body : Option (List GeoEntry))

/-- One entry of the results list of a routing response; time is in seconds. -/
structure RouteEntry where
  time : Option ℚ
deriving DecidableEq, Repr

/-- Outcome of the routing HTTP call, same conventions as GeoResp. -/
inductive RouteResp where
  | netErr
  | resp (status : ℕ) (body : Option (List RouteEntry))

/-- get_coordinates (geoapify.py lines 9-37): on a 200 response with a
nonempty results list it returns the pair of the lat and lon entries of the
first result, each possibly None; every failure path returns None. -/
def get_coordinates : GeoResp → Option (Option ℚ × Option ℚ)
  | GeoResp.netErr => Option.none
  | GeoResp.resp status body =>
    if status = 200 then
      match body with
      | some (r :: _) => some (r.lat, r.lon)
      | some [] => Option.none
      | Option.none => Option.none
    else Option.none

/-- A coordinate pair as get_coordinates returns it. -/
abbrev Coords := Option ℚ × Option ℚ

/-- Decoding of the routing response (geoapify.py lines 62-72): seconds
divided by 3600, None on any failure. -/
def parseRouteResp : RouteResp → Option ℚ
  | RouteResp.netErr => Option.none
  | RouteResp.resp status body =>
    if status = 200 then
      match body with
      | some (e :: _) =>
        match e.time with
        | some secs => some (secs / 3600)
        | Option.none => Option.none
      | some [] => Option.none
      | Option.none => Option.none
    else Option.none

/-- Result of get_optimized_route_time together with the routing request it
issued, when it issued one, recorded with the waypoint pairs used. -/
structure OptCall where
  result : Option ℚ
  routingCall : Option (Coords × Coords)
deriving DecidableEq, Repr

/-- get_optimized_route_time (geoapify.py lines 40-72).  The guard
"if not start_coords or not end_coords" only detects the value None: a tuple
is truthy in Python even when it contains None, so the routing request is
issued whenever both geocode calls returned a pair at all. -/
def get_optimized_route_time (g1 g2 : GeoResp)
    (ro : Coords → Coords → RouteResp) : OptCall :=
  match get_coordinates g1, get_coordinates g2 with
  | some c1, some c2 =>
    { result := parseRouteResp (ro c1 c2), routingCall := some (c1, c2) }
  | _, _ => { result := Option.none, routingCall := Option.none }

/-- Nearest integer with ties to even, the rounding Python round() applies to
the exact value. -/
def roundHalfEven (q : ℚ) : ℤ :=
  if q - Int.floor q < 1/2 then Int.floor q
  else if (1 : ℚ)/2 < q - Int.floor q then Int.floor q + 1
  else if Int.floor q % 2 = 0 then Int.floor q else Int.floor q + 1

/-- Python round(x, 2) on the exact value. -/
def pyround2 (q : ℚ) : ℚ := (roundHalfEven (q * 100) : ℚ) / 100

/-- An InefficientRoute row (models.py lines 29-45). -/
structure IRoute where
  file_id : ℕ
  base_address : String
  shipping_address : String
  starting_time : ℚ
  expected_delivery_time : ℚ
  actual_delivery_time : ℚ
  expected_delivery_cost : ℚ
  actual_delivery_cost : ℚ
  max_delivery_cost : ℚ
  optimized_delivery_time : Option ℚ
  time_saved : Option ℚ
deriving DecidableEq, Repr

/-- The external world seen by update_cached_routes: a geocode response per
address and a routing response per waypoint pair, fixed for one pass. -/
structure GeoEnv where
  geo : String → GeoResp
  route : Coords → Coords → RouteResp

/-- The loop body of update_cached_routes (geoapify.py lines 83-94): returns
the possibly updated record and whether the commit branch fired for it. -/
def update_one (env : GeoEnv) (r : IRoute) : IRoute × Bool :=
  if r.optimized_delivery_time = Option.none ∨ r.time_saved = Option.none then
    match (get_optimized_route_time (env.geo r.base_address)
            (env.geo r.shipping_address) env.route).result with
    | some opt_time =>
      if opt_time < r.actual_delivery_time - r.starting_time then
        ({ r with
            optimized_delivery_time := some (pyround2 opt_time),
            time_saved :=
              some (pyround2 (r.actual_delivery_time - r.starting_time - opt_time)) },
         true)
      else (r, false)
    | Option.none => (r, false)
  else (r, false)

/-- update_cached_routes (geoapify.py lines 75-102): every record is processed
independently in order; the boolean is the updated flag that decides whether a
commit is attempted. -/
def update_cached_routes (env : GeoEnv) (routes : List IRoute) :
    List IRoute × Bool :=
  (routes.map (fun r => (update_one env r).fst),
   routes.any (fun r => (update_one env r).snd))

/-- The flash category of the upload response. -/
inductive Flash where
  | ok
  | danger
deriving DecidableEq, Repr

/-- What the upload request leaves behind: whether the File row was persisted,
the stored parsed blob, the InefficientRoute rows, and the flash category. -/
structure UploadResult where
  filePersisted : Bool
  parsed_blob : Option ParseResult
  routes : List IRoute
  flash : Flash

/-- The InefficientRoute constructor call of upload (upload_routes.py
lines 75-85); the to_float calls on the cost fields are identities there
because parse_excel already produced floats. -/
def routeToIRoute (fid : ℕ) (r : Route) : IRoute :=
  { file_id := fid,
    base_address := r.base_address,
    shipping_address := r.shipping_address,
    starting_time := r.starting_time,
    expected_delivery_time := r.expected_delivery_time,
    actual_delivery_time := r.actual_delivery_time,
    expected_delivery_cost := r.expected_delivery_cost,
    actual_delivery_cost := r.actual_delivery_cost,
    max_delivery_cost := r.max_delivery_cost,
    optimized_delivery_time := Option.none,
    time_saved := Option.none }

/-- The POST branch of upload (upload_routes.py lines 42-94) after the
extension and size checks pass for an Excel file: the File row is committed,
parse_excel runs and its result is stored as the parsed blob, the routes with
delay over 24 hours are inserted (the delay_hours key is always present on
parse_excel output, so the fallback recomputation is not reached), the cache
fill runs, and the request flashes ok. -/
def upload (fid : ℕ) (input : ExcelInput) (env : GeoEnv) : UploadResult :=
  let parsed := parse_excel input
  let inserted :=
    (parsed.inefficient_routes.filter
      (fun r => decide (24 < r.delay_hours))).map (routeToIRoute fid)
  { filePersisted := true,
    parsed_blob := some parsed,
    routes := (update_cached_routes env inserted).fst,
    flash := Flash.ok }

/-- A time-valued field of one route of the JSON blob stored in
File.parsed_data: after json.loads it is either a number (an hour offset) or
the ISO string of an absolute datetime, modelled by the datetime it denotes. -/
inductive TVal where
  | num (q : ℚ)
  | timeStr (t : ℚ)
deriving DecidableEq, Repr

/-- One route of the JSON-decoded blob as show_inefficient reads it. -/
structure BlobRoute where
  base_address : String
  shipping_address : String
  starting_time : TVal
  expected_delivery_time : TVal
  actual_delivery_time : TVal
  expected_delivery_cost : ℚ
  actual_delivery_cost : ℚ
  max_delivery_cost : ℚ
  delay_hours : Option ℚ
deriving DecidableEq, Repr

/-- to_float applied to a JSON-decoded time field: a float stays a float, an
ISO datetime string never parses as a float. -/
def to_float_tv : TVal → Option ℚ
  | TVal.num q => some q
  | TVal.timeStr _ => Option.none

/-- json.dumps(parsed, default=str) followed by json.loads: the datetimes of
a parse_excel route become ISO strings and delay_hours is present. -/
def blobOf (p : ParseResult) : List BlobRoute :=
  p.inefficient_routes.map (fun r =>
    { base_address := r.base_address,
      shipping_address := r.shipping_address,
      starting_time := TVal.timeStr r.starting_time,
      expected_delivery_time := TVal.timeStr r.expected_delivery_time,
      actual_delivery_time := TVal.timeStr r.actual_delivery_time,
      expected_delivery_cost := r.expected_delivery_cost,
      actual_delivery_cost := r.actual_delivery_cost,
      max_delivery_cost := r.max_delivery_cost,
      delay_hours := some r.delay_hours })

/-- The natural-key comparison of the dedup query (inefficient_routes.py
lines 26-30): the stored datetime against the starting_time field of the blob
route.  This idealizes the comparison as matching on equal instants; on the
application's SQLite database, binding the blob's string (or float)
starting_time to the DateTime column raises a TypeError instead, so the real
query never returns a match result (see the comment on rederive). -/
def keyMatch (stored : ℚ) : TVal → Bool
  | TVal.timeStr t => stored == t
  | TVal.num _ => false

/-- The existing-row check of the re-derivation pass, built on keyMatch: a
boolean (false on an empty table) where the real query on SQLite raises for
every blob route, since a blob starting_time is always a JSON string or
number, never a datetime object. -/
def existsKey (fid : ℕ) (table : List IRoute) (b : BlobRoute) : Bool :=
  table.any (fun r =>
    r.file_id == fid && r.base_address == b.base_address
      && keyMatch r.starting_time b.starting_time)

/-- The delay used by the re-derivation pass (inefficient_routes.py
lines 34-41): delay_hours when present, else the difference of the two
delivery fields when both parse as floats, else the row is skipped. -/
def rederiveDelay (b : BlobRoute) : Option ℚ :=
  match b.delay_hours with
  | some d => some d
  | Option.none =>
    match to_float_tv b.expected_delivery_time,
          to_float_tv b.actual_delivery_time with
    | some ev, some av => some (av - ev)
    | _, _ => Option.none

/-- Resolution of a delivery-time field by the re-derivation pass
(inefficient_routes.py lines 49-56): a float offset is added to the starting
time, an ISO string is parsed as the absolute datetime. -/
def resolveTime (start : ℚ) : TVal → ℚ
  | TVal.num h => start + h
  | TVal.timeStr t => t

/-- The per-file route loop of the POST branch of show_inefficient
(inefficient_routes.py lines 25-70) over one file.  A starting_time that is
not a string makes fromisoformat raise; the per-file except then stops the
remaining rows of this file, keeping the rows already added.  Because the
dedup query is idealized as the value comparison existsKey where on the
configured SQLite database it raises a TypeError that the per-file except
catches at the first route, the insertion path of lines 43-70 modelled here
is unreachable in the deployed program: this model lets the pass insert rows
the program cannot, so it over-approximates the set of stored rows, and any
property proved of every row this model inserts holds a fortiori of the
program. -/
def rederive (fid : ℕ) : List BlobRoute → List IRoute → ℕ → List IRoute × ℕ
  | [], table, count => (table, count)
  | b :: rest, table, count =>
    if existsKey fid table b then rederive fid rest table count
    else
      match rederiveDelay b with
      | Option.none => rederive fid rest table count
      | some d =>
        if 24 < d then
          match b.starting_time with
          | TVal.timeStr st =>
            rederive fid rest
              (table ++ [{
                file_id := fid,
                base_address := b.base_address,
                shipping_address := b.shipping_address,
                starting_time := st,
                expected_delivery_time := resolveTime st b.expected_delivery_time,
                actual_delivery_time := resolveTime st b.actual_delivery_time,
                expected_delivery_cost := b.expected_delivery_cost,
                actual_delivery_cost := b.actual_delivery_cost,
                max_delivery_cost := b.max_delivery_cost,
                optimized_delivery_time := Option.none,
                time_saved := Option.none }])
              (count + 1)
          | TVal.num _ => (table, count)
        else rederive fid rest table count

/-- The delay of a stored row as generate_summary recomputes it. -/
def delayOf (r : IRoute) : ℚ :=
  r.actual_delivery_time - r.expected_delivery_time

/-- Python truthiness of an optional float, as in the generator
"for r in routes if r.time_saved": None and 0.0 are both falsy. -/
def truthy : Option ℚ → Bool
  | Option.none => false
  | some q => q != 0

/-- The float under an optional, 0 when absent. -/
def optQ : Option ℚ → ℚ
  | Option.none => 0
  | some q => q

/-- One row of the cost table of generate_summary (report_utils.py
lines 77-87), with the rounding the code applies to the displayed fields. -/
structure CostRow where
  base_address : String
  shipping_address : String
  actual_duration : ℚ
  optimized_time : ℚ
  max_delivery_cost : ℚ
  optimized_cost : ℚ
  actual_cost : ℚ
  cost_saved : ℚ
deriving DecidableEq, Repr

/-- The body of the cost loop of generate_summary (report_utils.py
lines 64-87): rows without an optimized time are skipped; the running total
accumulates the unrounded saving. -/
def costStep (acc : List CostRow × ℚ) (r : IRoute) : List CostRow × ℚ :=
  match r.optimized_delivery_time with
  | Option.none => acc
  | some opt_time =>
    (acc.fst ++ [{
        base_address := r.base_address,
        shipping_address := r.shipping_address,
        actual_duration := pyround2 (r.actual_delivery_time - r.starting_time),
        optimized_time := pyround2 opt_time,
        max_delivery_cost := r.max_delivery_cost,
        optimized_cost := pyround2 (r.max_delivery_cost * opt_time),
        actual_cost :=
          pyround2 (r.max_delivery_cost * (r.actual_delivery_time - r.starting_time)),
        cost_saved :=
          pyround2 (r.max_delivery_cost * (r.actual_delivery_time - r.starting_time)
            - r.max_delivery_cost * opt_time) }],
     acc.snd + (r.max_delivery_cost * (r.actual_delivery_time - r.starting_time)
       - r.max_delivery_cost * opt_time))

/-- The computed fields of the summary (report_utils.py lines 50-89); the
returned dictionary also carries rounded copies and string-formatted detail
rows, which are display only and not modelled. -/
structure Summary where
  inefficient_count : ℕ
  total_delay : ℚ
  avg_delay : ℚ
  total_saved : ℚ
  avg_saved : ℚ
  total_cost_saved : ℚ
  avg_cost_saved : ℚ
  cost_table : List CostRow
deriving DecidableEq, Repr

/-- generate_summary (report_utils.py lines 42-130) on the stored rows of one
dataset: the cache fill runs first, the count keeps the rows delayed by more
than 24 hours, the totals and averages follow lines 56-89, with every average
guarded by the count being nonzero. -/
def generate_summary (env : GeoEnv) (stored : List IRoute) : Summary :=
  let routes := (update_cached_routes env stored).fst
  let cnt := (routes.filter (fun r => decide (24 < delayOf r))).length
  let total_delay := (routes.map delayOf).sum
  let total_saved :=
    ((routes.filter (fun r => truthy r.time_saved)).map (fun r => optQ r.time_saved)).sum
  let ct := routes.foldl costStep ([], 0)
  { inefficient_count := cnt,
    total_delay := total_delay,
    avg_delay := if cnt = 0 then 0 else total_delay / (cnt : ℚ),
    total_saved := total_saved,
    avg_saved := if cnt = 0 then 0 else total_saved / (cnt : ℚ),
    total_cost_saved := ct.snd,
    avg_cost_saved := if cnt = 0 then 0 else ct.snd / (cnt : ℚ),
    cost_table := ct.fst }

/-!
Concrete inputs used by the witnesses and counterexamples below.  The row
rowA is the scenario of section 8 of the specification: delay 28 hours,
actual duration 30 hours.
-/

/-- The section 8 scenario row, with the delivery times as numeric offsets. -/
def rowA : Row :=
  [("Base Address", Cell.txt "A"), ("Shipping Address", Cell.txt "B"),
   ("Starting Time", Cell.time 0),
   ("Expected Delivery Time (hours)", Cell.num 2),
   ("Actual Delivery Time (hours)", Cell.num 30),
   ("Expected Delivery Cost (VND)", Cell.num 100000),
   ("Actual Delivery Cost (VND)", Cell.num 400000),
   ("Max Delivery Cost (VND/hr)", Cell.num 20000)]

/-- A one-sheet workbook holding rowA. -/
def wb1 : ExcelInput := ExcelInput.workbook [⟨required_cols, [rowA]⟩]

/-- The route parse_excel derives from rowA. -/
def routeA : Route := ⟨"A", "B", 0, 2, 30, 100000, 400000, 20000, 28⟩

/-- The same scenario row with the two delivery-time cells carrying absolute
datetimes (hour 2 and hour 30) instead of numeric offsets. -/
def rowT : Row :=
  [("Base Address", Cell.txt "A"), ("Shipping Address", Cell.txt "B"),
   ("Starting Time", Cell.time 0),
   ("Expected Delivery Time (hours)", Cell.time 2),
   ("Actual Delivery Time (hours)", Cell.time 30),
   ("Expected Delivery Cost (VND)", Cell.num 100000),
   ("Actual Delivery Cost (VND)", Cell.num 400000),
   ("Max Delivery Cost (VND/hr)", Cell.num 20000)]

/-- A one-sheet workbook holding rowT. -/
def wbT : ExcelInput := ExcelInput.workbook [⟨required_cols, [rowT]⟩]

/-- An environment where every external call raises. -/
def env0 : GeoEnv := ⟨fun _ => GeoResp.netErr, fun _ _ => RouteResp.netErr⟩

/-- A fresh stored row with actual duration 10 hours. -/
def r2 : IRoute :=
  ⟨1, "A", "B", 0, 2, 10, 100000, 400000, 20000, Option.none, Option.none⟩

/-- An environment whose geocode succeeds and whose routing call reports
450 seconds, that is one eighth of an hour. -/
def env2 : GeoEnv :=
  ⟨fun _ => GeoResp.resp 200 (some [⟨some 1, some 2⟩]),
   fun _ _ => RouteResp.resp 200 (some [⟨some 450⟩])⟩

/-- A second successful environment, reporting 7200 seconds. -/
def env2b : GeoEnv :=
  ⟨fun _ => GeoResp.resp 200 (some [⟨some 3, some 4⟩]),
   fun _ _ => RouteResp.resp 200 (some [⟨some 7200⟩])⟩

/-- A stored row whose optimized fields are already populated. -/
def r4 : IRoute := ⟨2, "A", "B", 0, 2, 30, 1, 1, 1, some 5, some 3⟩

/-- A fresh stored row used for the external-failure witness. -/
def r8 : IRoute := ⟨3, "A", "B", 0, 2, 30, 1, 1, 1, Option.none, Option.none⟩

/-- A fresh stored row with actual duration 10.004 hours. -/
def r9 : IRoute :=
  ⟨4, "A", "B", 0, 2, 2501/250, 1, 1, 20000, Option.none, Option.none⟩

/-- An environment whose routing call reports 3600 seconds, one hour. -/
def env9 : GeoEnv :=
  ⟨fun _ => GeoResp.resp 200 (some [⟨some 1, some 2⟩]),
   fun _ _ => RouteResp.resp 200 (some [⟨some 3600⟩])⟩

/-- A 200 geocode response whose first result lacks the lat key. -/
def gNoLat : GeoResp := GeoResp.resp 200 (some [⟨Option.none, some 5⟩])

/-- A well-formed 200 geocode response. -/
def gOk : GeoResp := GeoResp.resp 200 (some [⟨some 1, some 2⟩])

/-- A routing oracle answering 7200 seconds to every request. -/
def roAny : Coords → Coords → RouteResp :=
  fun _ _ => RouteResp.resp 200 (some [⟨some 7200⟩])

/-- A one-row stored table whose row has delay 28 and a populated optimized
time of 10 hours. -/
def storedC5 : List IRoute :=
  [⟨5, "A", "B", 0, 2, 30, 1, 1, 20000, some 10, some 20⟩]

/-!
General lemmas about the embedded pipeline.
-/

/-- Inversion of the row loop: a kept row has every required cell non-null,
all five numeric parses succeed, the delay check passed, and the route fields
are exactly the parsed values. -/
theorem processRow_keep_inv (row : Row) (r : Route)
    (h : processRow row = RowResult.keep r) :
    (∀ c ∈ required_cols, rowGet row c ≠ Cell.null) ∧
    ∃ st exp_h act_h ec ac mc,
      rowGet row "Starting Time" = Cell.time st ∧
      to_float (rowGet row "Expected Delivery Time (hours)") = some exp_h ∧
      to_float (rowGet row "Actual Delivery Time (hours)") = some act_h ∧
      to_float (rowGet row "Expected Delivery Cost (VND)") = some ec ∧
      to_float (rowGet row "Actual Delivery Cost (VND)") = some ac ∧
      to_float (rowGet row "Max Delivery Cost (VND/hr)") = some mc ∧
      24 < act_h - exp_h ∧
      r = ⟨pyStr (rowGet row "Base Address"), pyStr (rowGet row "Shipping Address"),
           st, st + exp_h, st + act_h, ec, ac, mc, act_h - exp_h⟩ := by
  unfold processRow at h
  split at h
  · exact absurd h (by simp)
  next hnull =>
    refine ⟨?_, ?_⟩
    · intro c hc hnil
      apply hnull
      simp only [List.any_eq_true]
      exact ⟨c, hc, by simp [hnil]⟩
    · split at h
      next exp_h act_h hexp hact =>
        split at h
        next hlt =>
          split at h
          next st hst =>
            split at h
            next ec ac mc hec hac hmc =>
              cases h
              exact ⟨st, exp_h, act_h, ec, ac, mc, hst, hexp, hact, hec, hac, hmc, hlt, rfl⟩
            next hne => exact absurd h (by simp)
          next => exact absurd h (by simp)
        next => exact absurd h (by simp)
      next => exact absurd h (by simp)

/-- Every route in the output of the row loop is in the accumulator or kept
by some row of the sheet. -/
theorem processRows_mem (rows : List Row) (acc : List Route) (r : Route)
    (h : r ∈ (processRows rows acc).fst) :
    r ∈ acc ∨ ∃ row ∈ rows, processRow row = RowResult.keep r := by
  induction rows generalizing acc with
  | nil => exact Or.inl h
  | cons row rest ih =>
    rw [processRows] at h
    cases hrow : processRow row with
    | skip =>
      rw [hrow] at h
      rcases ih acc h with h1 | ⟨row0, hm, hk⟩
      · exact Or.inl h1
      · exact Or.inr ⟨row0, List.mem_cons_of_mem _ hm, hk⟩
    | keep r0 =>
      rw [hrow] at h
      rcases ih (acc ++ [r0]) h with h1 | ⟨row0, hm, hk⟩
      · rcases List.mem_append.mp h1 with h2 | h2
        · exact Or.inl h2
        · exact Or.inr ⟨row, List.mem_cons_self _ _, by rwa [List.mem_singleton.mp h2]⟩
      · exact Or.inr ⟨row0, List.mem_cons_of_mem _ hm, hk⟩
    | err =>
      rw [hrow] at h
      exact Or.inl h

/-- Every route in the output of the sheet loop is in the accumulator or kept
by some row of some sheet. -/
theorem processSheets_mem (sheets : List Sheet) (acc : List Route) (r : Route)
    (h : r ∈ processSheets sheets acc) :
    r ∈ acc ∨ ∃ s ∈ sheets, ∃ row ∈ s.rows, processRow row = RowResult.keep r := by
  induction sheets generalizing acc with
  | nil => exact Or.inl h
  | cons s rest ih =>
    rw [processSheets] at h
    by_cases hc : colsOk s
    · rw [if_pos hc] at h
      cases hpr : processRows s.rows acc with
      | mk acc2 b =>
        rw [hpr] at h
        have hacc2 : acc2 = (processRows s.rows acc).fst := by rw [hpr]
        cases b with
        | true =>
          rcases processRows_mem s.rows acc r (hacc2 ▸ h) with h1 | ⟨row0, hm, hk⟩
          · exact Or.inl h1
          · exact Or.inr ⟨s, List.mem_cons_self _ _, row0, hm, hk⟩
        | false =>
          rcases ih acc2 h with h1 | ⟨s0, hs, row0, hm, hk⟩
          · rcases processRows_mem s.rows acc r (hacc2 ▸ h1) with h2 | ⟨row0, hm, hk⟩
            · exact Or.inl h2
            · exact Or.inr ⟨s, List.mem_cons_self _ _, row0, hm, hk⟩
          · exact Or.inr ⟨s0, List.mem_cons_of_mem _ hs, row0, hm, hk⟩
    · rw [if_neg hc] at h
      rcases ih acc h with h1 | ⟨s0, hs, row0, hm, hk⟩
      · exact Or.inl h1
      · exact Or.inr ⟨s0, List.mem_cons_of_mem _ hs, row0, hm, hk⟩

/-- Every route parse_excel emits was kept by some row of some sheet. -/
theorem parse_excel_mem (input : ExcelInput) (r : Route)
    (h : r ∈ (parse_excel input).inefficient_routes) :
    ∃ sheets, input = ExcelInput.workbook sheets ∧
      ∃ s ∈ sheets, ∃ row ∈ s.rows, processRow row = RowResult.keep r := by
  cases input with
  | unreadable => exact absurd h (by simp [parse_excel])
  | workbook sheets =>
    rcases processSheets_mem sheets [] r h with h1 | h1
    · exact absurd h1 (by simp)
    · exact ⟨sheets, rfl, h1⟩

/-- Every route parse_excel emits has its delay over 24 hours and equal to
the difference of its two delivery times. -/
theorem parse_route_delay (input : ExcelInput) (r : Route)
    (h : r ∈ (parse_excel input).inefficient_routes) :
    24 < r.delay_hours ∧
    r.actual_delivery_time - r.expected_delivery_time = r.delay_hours := by
  rcases parse_excel_mem input r h with ⟨sheets, _, s, _, row, _, hk⟩
  rcases processRow_keep_inv row r hk with
    ⟨_, st, exp_h, act_h, _, _, _, _, _, _, _, _, _, hlt, hr⟩
  subst hr
  constructor
  · exact hlt
  · ring

/-- The cache-fill loop body either leaves a record unchanged with a false
flag, or commits both rounded fields on a successful, strictly smaller
optimized time. -/
theorem update_one_cases (env : GeoEnv) (r : IRoute) :
    update_one env r = (r, false) ∨
    ∃ t, (get_optimized_route_time (env.geo r.base_address)
            (env.geo r.shipping_address) env.route).result = some t ∧
      t < r.actual_delivery_time - r.starting_time ∧
      update_one env r = ({ r with
        optimized_delivery_time := some (pyround2 t),
        time_saved := some (pyround2 (r.actual_delivery_time - r.starting_time - t)) },
        true) := by
  unfold update_one
  split
  · split
    next t hres =>
      split
      next hlt => exact Or.inr ⟨t, hres, hlt, rfl⟩
      next => exact Or.inl rfl
    next => exact Or.inl rfl
  · exact Or.inl rfl

/-- The cache-fill loop body never changes any field other than the two
optimized ones. -/
theorem update_one_keeps (env : GeoEnv) (r : IRoute) :
    (update_one env r).fst.file_id = r.file_id ∧
    (update_one env r).fst.base_address = r.base_address ∧
    (update_one env r).fst.shipping_address = r.shipping_address ∧
    (update_one env r).fst.starting_time = r.starting_time ∧
    (update_one env r).fst.expected_delivery_time = r.expected_delivery_time ∧
    (update_one env r).fst.actual_delivery_time = r.actual_delivery_time ∧
    (update_one env r).fst.expected_delivery_cost = r.expected_delivery_cost ∧
    (update_one env r).fst.actual_delivery_cost = r.actual_delivery_cost ∧
    (update_one env r).fst.max_delivery_cost = r.max_delivery_cost := by
  rcases update_one_cases env r with h | ⟨t, _, _, h⟩ <;> rw [h] <;> simp

/-- A record with both optimized fields populated is skipped unchanged, for
every environment. -/
theorem update_one_skip (env : GeoEnv) (r : IRoute)
    (h1 : r.optimized_delivery_time ≠ Option.none)
    (h2 : r.time_saved ≠ Option.none) :
    update_one env r = (r, false) := by
  unfold update_one
  rw [if_neg]
  intro h
  rcases h with h | h
  · exact h1 h
  · exact h2 h

/-- Running the loop body on its own output changes nothing and reports no
update. -/
theorem update_one_idem (env : GeoEnv) (r : IRoute) :
    update_one env ((update_one env r).fst) = ((update_one env r).fst, false) := by
  rcases update_one_cases env r with h | ⟨t, hres, hlt, h⟩
  · rw [h]
    rw [h]
  · rw [h]
    apply update_one_skip <;> simp

/-- A second cache-fill pass over the output of a first one updates nothing. -/
theorem update_cached_routes_idem (env : GeoEnv) (routes : List IRoute) :
    update_cached_routes env ((update_cached_routes env routes).fst)
      = ((update_cached_routes env routes).fst, false) := by
  unfold update_cached_routes
  simp only [List.map_map, List.any_map, Prod.mk.injEq]
  constructor
  · apply List.map_congr_left
    intro r _
    simp only [Function.comp_apply]
    rw [update_one_idem env r]
  · rw [List.any_eq_false]
    intro r _
    simp only [Function.comp_apply]
    rw [update_one_idem env r]
    simp

/-- Every row in the output of the re-derivation pass is in the incoming
table or was inserted from a blob route that passed the existing-key, delay
and starting-time checks. -/
theorem rederive_mem (fid : ℕ) (blob : List BlobRoute) (table : List IRoute)
    (count : ℕ) (ir : IRoute) (h : ir ∈ (rederive fid blob table count).fst) :
    ir ∈ table ∨ ∃ b ∈ blob, ∃ d st,
      rederiveDelay b = some d ∧ 24 < d ∧ b.starting_time = TVal.timeStr st ∧
      ir = ⟨fid, b.base_address, b.shipping_address, st,
            resolveTime st b.expected_delivery_time,
            resolveTime st b.actual_delivery_time,
            b.expected_delivery_cost, b.actual_delivery_cost, b.max_delivery_cost,
            Option.none, Option.none⟩ := by
  induction blob generalizing table count with
  | nil => exact Or.inl h
  | cons b rest ih =>
    rw [rederive] at h
    by_cases hex : existsKey fid table b = true
    · rw [if_pos hex] at h
      rcases ih table count h with h1 | ⟨b0, hm, rest_h⟩
      · exact Or.inl h1
      · exact Or.inr ⟨b0, List.mem_cons_of_mem _ hm, rest_h⟩
    · rw [if_neg hex] at h
      split at h
      · rcases ih table count h with h1 | ⟨b0, hm, rest_h⟩
        · exact Or.inl h1
        · exact Or.inr ⟨b0, List.mem_cons_of_mem _ hm, rest_h⟩
      next d hdel =>
        split at h
        next hlt =>
          split at h
          next st hst =>
            rcases ih _ _ h with h1 | ⟨b0, hm, rest_h⟩
            · rcases List.mem_append.mp h1 with h2 | h2
              · exact Or.inl h2
              · exact Or.inr ⟨b, List.mem_cons_self _ _, d, st, hdel, hlt, hst,
                  List.mem_singleton.mp h2⟩
            · exact Or.inr ⟨b0, List.mem_cons_of_mem _ hm, rest_h⟩
          next q hst => exact Or.inl h
        next hlt =>
          rcases ih table count h with h1 | ⟨b0, hm, rest_h⟩
          · exact Or.inl h1
          · exact Or.inr ⟨b0, List.mem_cons_of_mem _ hm, rest_h⟩

/-- Every blob route of a serialized parse result comes from a parsed route,
with the datetimes serialized as ISO strings and delay_hours present. -/
theorem blobOf_mem (p : ParseResult) (b : BlobRoute) (h : b ∈ blobOf p) :
    ∃ r0 ∈ p.inefficient_routes,
      b = { base_address := r0.base_address,
            shipping_address := r0.shipping_address,
            starting_time := TVal.timeStr r0.starting_time,
            expected_delivery_time := TVal.timeStr r0.expected_delivery_time,
            actual_delivery_time := TVal.timeStr r0.actual_delivery_time,
            expected_delivery_cost := r0.expected_delivery_cost,
            actual_delivery_cost := r0.actual_delivery_cost,
            max_delivery_cost := r0.max_delivery_cost,
            delay_hours := some r0.delay_hours } := by
  rcases List.mem_map.mp h with ⟨r0, hm, hb⟩
  exact ⟨r0, hm, hb.symm⟩

/-!
Evaluation lemmas on the concrete inputs.
-/

/-- The scenario row is kept with delay 28. -/
theorem processRow_rowA : processRow rowA = RowResult.keep routeA := by
  have h0 : (required_cols.any fun c => rowGet rowA c == Cell.null) = false := rfl
  have h1 : rowGet rowA "Expected Delivery Time (hours)" = Cell.num 2 := rfl
  have h2 : rowGet rowA "Actual Delivery Time (hours)" = Cell.num 30 := rfl
  have h3 : rowGet rowA "Starting Time" = Cell.time 0 := rfl
  have h4 : rowGet rowA "Expected Delivery Cost (VND)" = Cell.num 100000 := rfl
  have h5 : rowGet rowA "Actual Delivery Cost (VND)" = Cell.num 400000 := rfl
  have h6 : rowGet rowA "Max Delivery Cost (VND/hr)" = Cell.num 20000 := rfl
  have h7 : rowGet rowA "Base Address" = Cell.txt "A" := rfl
  have h8 : rowGet rowA "Shipping Address" = Cell.txt "B" := rfl
  rw [processRow, h0]
  simp only [Bool.false_eq_true, if_false, h1, h2, h3, h4, h5, h6, h7, h8, to_float]
  rw [if_pos (by norm_num : (24:ℚ) < 30 - 2)]
  simp only [pyStr, routeA, RowResult.keep.injEq, Route.mk.injEq]
  norm_num

/-- The one-row workbook parses to exactly the scenario route. -/
theorem parse_wb1 : parse_excel wb1 = ⟨[routeA]⟩ := by
  have hc : colsOk ⟨required_cols, [rowA]⟩ = true := rfl
  simp only [wb1, parse_excel, processSheets, hc, if_true, processRows,
    processRow_rowA, List.nil_append]

/-- The commit rule of the cache-fill loop body: on a processed record whose
external call succeeded with time t, both rounded fields are committed when
t is strictly below the actual duration, and nothing changes otherwise. -/
theorem update_one_commit (env : GeoEnv) (r : IRoute) (t : ℚ)
    (hproc : r.optimized_delivery_time = Option.none ∨ r.time_saved = Option.none)
    (hsucc : (get_optimized_route_time (env.geo r.base_address)
        (env.geo r.shipping_address) env.route).result = some t) :
    (t < r.actual_delivery_time - r.starting_time →
      (update_one env r).fst = { r with
        optimized_delivery_time := some (pyround2 t),
        time_saved := some (pyround2 (r.actual_delivery_time - r.starting_time - t)) }) ∧
    (r.actual_delivery_time - r.starting_time ≤ t →
      (update_one env r).fst = r) := by
  unfold update_one
  rw [if_pos hproc, hsucc]
  simp only []
  constructor
  · intro hlt
    rw [if_pos hlt]
  · intro hge
    rw [if_neg (not_lt.mpr hge)]

/-- The routing oracle of env2 reports 450 seconds, one eighth of an hour. -/
theorem opt_env2 : (get_optimized_route_time (env2.geo r2.base_address)
    (env2.geo r2.shipping_address) env2.route).result = some (1/8) := by
  simp only [env2, get_optimized_route_time, get_coordinates, parseRouteResp]
  norm_num

/-- Python round(0.125, 2) on the exact value is 0.12, ties to even. -/
theorem pyround2_eighth : pyround2 (1/8) = 3/25 := by
  rw [pyround2, roundHalfEven]
  norm_num

/-- Python round(9.875, 2) on the exact value is 9.88, ties to even. -/
theorem pyround2_saved : pyround2 (10 - 1/8) = 247/25 := by
  rw [pyround2, roundHalfEven]
  norm_num

/-- The cache fill on r2 under env2 stores 0.12 and 9.88. -/
theorem update_r2 : (update_one env2 r2).fst =
    { r2 with optimized_delivery_time := some (3/25), time_saved := some (247/25) } := by
  rw [(update_one_commit env2 r2 (1/8) (Or.inl rfl) opt_env2).1
    (by norm_num [r2] : (1:ℚ)/8 < r2.actual_delivery_time - r2.starting_time)]
  have hd : r2.actual_delivery_time - r2.starting_time - 1/8 = 10 - 1/8 := by norm_num [r2]
  rw [hd, pyround2_eighth, pyround2_saved]

/-- The routing oracle of env9 reports 3600 seconds, one hour. -/
theorem opt_env9 : (get_optimized_route_time (env9.geo r9.base_address)
    (env9.geo r9.shipping_address) env9.route).result = some 1 := by
  simp only [env9, get_optimized_route_time, get_coordinates, parseRouteResp]
  norm_num

/-- The cache fill on r9 under env9 stores 1.0 and 9.0: round(9.004, 2) is 9. -/
theorem update_r9 : (update_one env9 r9).fst =
    { r9 with optimized_delivery_time := some 1, time_saved := some 9 } := by
  rw [(update_one_commit env9 r9 1 (Or.inl rfl) opt_env9).1
    (by norm_num [r9] : (1:ℚ) < r9.actual_delivery_time - r9.starting_time)]
  have hd : r9.actual_delivery_time - r9.starting_time - 1 = 2251/250 := by norm_num [r9]
  have h1 : pyround2 1 = 1 := by rw [pyround2, roundHalfEven]; norm_num
  have h2 : pyround2 (2251/250) = 9 := by rw [pyround2, roundHalfEven]; norm_num
  rw [hd, h1, h2]

/-- The cost loop appends one row per record with an optimized time present. -/
theorem costStep_fold_length (routes : List IRoute) (acc : List CostRow × ℚ) :
    (routes.foldl costStep acc).fst.length
      = acc.fst.length
        + (routes.filter (fun r => r.optimized_delivery_time ≠ Option.none)).length := by
  induction routes generalizing acc with
  | nil => simp
  | cons r rest ih =>
    rw [List.foldl_cons, List.filter_cons]
    cases hopt : r.optimized_delivery_time with
    | none =>
      have hstep : costStep acc r = acc := by unfold costStep; rw [hopt]
      rw [hstep, ih]
      simp [hopt]
    | some q =>
      have hc : (decide (some q ≠ (Option.none : Option ℚ))) = true := by simp
      rw [hc]
      rw [if_pos rfl]
      have hstep : ∃ row extra, costStep acc r = (acc.fst ++ [row], acc.snd + extra) := by
        unfold costStep
        rw [hopt]
        exact ⟨_, _, rfl⟩
      rcases hstep with ⟨row, extra, hstep⟩
      rw [hstep, ih]
      simp only [List.length_append, List.length_cons, List.length_singleton,
        List.length_nil]
      omega

/-!
The claims.
-/

/-- C1: every InefficientRoute ever stored satisfies the admission criterion:
its delay, actual minus expected delivery time in hours, is strictly greater
than 24, so a record with delay exactly 24 is never retained.  This holds for
every route parse_excel emits, for every row the upload path inserts, and for
every row newly inserted by the re-derivation pass over the stored dataset
blob. -/
theorem C1_admission_invariant :
    (∀ input : ExcelInput, ∀ r ∈ (parse_excel input).inefficient_routes,
       24 < r.actual_delivery_time - r.expected_delivery_time) ∧
    (∀ fid input env, ∀ ir ∈ (upload fid input env).routes,
       24 < ir.actual_delivery_time - ir.expected_delivery_time) ∧
    (∀ fid input (table : List IRoute) count,
       ∀ ir ∈ (rederive fid (blobOf (parse_excel input)) table count).fst,
         ir ∈ table ∨ 24 < ir.actual_delivery_time - ir.expected_delivery_time) := by
  refine ⟨?_, ?_, ?_⟩
  · intro input r h
    rcases parse_route_delay input r h with ⟨hlt, heq⟩
    rw [heq]
    exact hlt
  · intro fid input env ir h
    simp only [upload, update_cached_routes] at h
    rcases List.mem_map.mp h with ⟨r1, hr1, hir⟩
    rcases List.mem_map.mp hr1 with ⟨r0, hr0, hr1eq⟩
    have hr0p : r0 ∈ (parse_excel input).inefficient_routes := List.mem_of_mem_filter hr0
    rcases parse_route_delay input r0 hr0p with ⟨hlt, heq⟩
    have hk := update_one_keeps env r1
    rw [← hir, hk.2.2.2.2.2.1, hk.2.2.2.2.1, ← hr1eq]
    simp only [routeToIRoute]
    rw [heq]
    exact hlt
  · intro fid input table count ir h
    rcases rederive_mem fid _ table count ir h with h1 | ⟨b, hb, d, st, hdel, hlt, hst, hir⟩
    · exact Or.inl h1
    · right
      rcases blobOf_mem _ b hb with ⟨r0, hr0, hbeq⟩
      subst hbeq
      simp only at hst
      cases hst
      subst hir
      simp only [resolveTime]
      rcases parse_route_delay input r0 hr0 with ⟨hl, he⟩
      rw [he]
      exact hl

/-- C1 witness: the section 8 scenario row is stored with delay 28 > 24. -/
theorem C1_admission_invariant_witness :
    routeA ∈ (parse_excel wb1).inefficient_routes ∧
    24 < routeA.actual_delivery_time - routeA.expected_delivery_time :=
  ⟨by rw [parse_wb1]; exact List.mem_singleton.mpr rfl,
   C1_admission_invariant.1 wb1 routeA
     (by rw [parse_wb1]; exact List.mem_singleton.mpr rfl)⟩

/-- C2 counterexample: on a record with actual duration 10 whose external
call succeeds with t = 0.125 hours, the committed optimizedDeliveryHours is
0.12, not t itself, so the fields are not set to t and d minus t as claimed. -/
theorem C2_counterexample :
    (get_optimized_route_time (env2.geo r2.base_address)
      (env2.geo r2.shipping_address) env2.route).result = some (1/8) ∧
    (1:ℚ)/8 < r2.actual_delivery_time - r2.starting_time ∧
    (update_one env2 r2).fst.optimized_delivery_time ≠ some (1/8) ∧
    (update_one env2 r2).fst.optimized_delivery_time = some (3/25) := by
  refine ⟨opt_env2, by norm_num [r2], ?_, ?_⟩
  · rw [update_r2]
    simp only [Option.some.injEq]
    norm_num
  · rw [update_r2]

/-- C2 amended: for every record processed by the cache-fill step whose
external call succeeds with optimized time t, with d the actual duration in
hours: if t < d then optimizedDeliveryHours is set to t rounded to two
decimals and timeSavedHours to d minus t rounded to two decimals, both
together; if t is at least d the record is left unchanged, so both fields
remain absent on a fresh record even though the call succeeded. -/
theorem C2_cachefill_commit_rule (env : GeoEnv) (r : IRoute) (t : ℚ)
    (hproc : r.optimized_delivery_time = Option.none ∨ r.time_saved = Option.none)
    (hsucc : (get_optimized_route_time (env.geo r.base_address)
        (env.geo r.shipping_address) env.route).result = some t) :
    (t < r.actual_delivery_time - r.starting_time →
      (update_one env r).fst = { r with
        optimized_delivery_time := some (pyround2 t),
        time_saved := some (pyround2 (r.actual_delivery_time - r.starting_time - t)) }) ∧
    (r.actual_delivery_time - r.starting_time ≤ t →
      (update_one env r).fst = r) :=
  update_one_commit env r t hproc hsucc

/-- C2 witness: the amended rule applied to the concrete record r2 under the
environment env2 whose routing call reports one eighth of an hour. -/
theorem C2_cachefill_commit_rule_witness :
    (r2.optimized_delivery_time = Option.none ∨ r2.time_saved = Option.none) ∧
    (get_optimized_route_time (env2.geo r2.base_address)
      (env2.geo r2.shipping_address) env2.route).result = some (1/8) ∧
    (((1:ℚ)/8 < r2.actual_delivery_time - r2.starting_time →
      (update_one env2 r2).fst = { r2 with
        optimized_delivery_time := some (pyround2 (1/8)),
        time_saved := some (pyround2 (r2.actual_delivery_time - r2.starting_time - 1/8)) }) ∧
     (r2.actual_delivery_time - r2.starting_time ≤ 1/8 → (update_one env2 r2).fst = r2)) :=
  ⟨Or.inl rfl, opt_env2, C2_cachefill_commit_rule env2 r2 (1/8) (Or.inl rfl) opt_env2⟩

/-- C3 counterexample: on an unreadable file parse_excel does not fail with a
ParseError: it returns an ordinary empty result, and the upload is not
aborted: the File row is persisted, the empty blob is stored, and the request
reports ok. -/
theorem C3_counterexample :
    parse_excel ExcelInput.unreadable = ⟨[]⟩ ∧
    (upload 1 ExcelInput.unreadable env0).filePersisted = true ∧
    (upload 1 ExcelInput.unreadable env0).parsed_blob = some ⟨[]⟩ ∧
    (upload 1 ExcelInput.unreadable env0).flash = Flash.ok :=
  ⟨rfl, rfl, rfl, rfl⟩

/-- C3 amended: parse_excel swallows read errors: an unreadable file yields
the empty result instead of an exception, and the upload then proceeds for
every environment, persisting the File row and the empty parsed blob and
flashing ok, with no InefficientRoute rows. -/
theorem C3_unreadable_no_abort :
    parse_excel ExcelInput.unreadable = ⟨[]⟩ ∧
    (∀ fid env, upload fid ExcelInput.unreadable env =
      { filePersisted := true, parsed_blob := some ⟨[]⟩,
        routes := [], flash := Flash.ok }) :=
  ⟨rfl, fun _ _ => rfl⟩

/-- C4: a second cache-fill pass over the output of a first one with the same
environment changes no row and reports no update; a record whose optimized
fields are both populated is skipped unchanged under every environment, hence
never re-queried; and populated optimized fields are never cleared back to
absent. -/
theorem C4_cachefill_monotone :
    (∀ env routes,
       update_cached_routes env ((update_cached_routes env routes).fst)
         = ((update_cached_routes env routes).fst, false)) ∧
    (∀ env envB (r : IRoute),
       r.optimized_delivery_time ≠ Option.none → r.time_saved ≠ Option.none →
       update_one env r = (r, false) ∧ update_one env r = update_one envB r) ∧
    (∀ env (r : IRoute),
       ((update_one env r).fst.optimized_delivery_time = Option.none →
         r.optimized_delivery_time = Option.none) ∧
       ((update_one env r).fst.time_saved = Option.none →
         r.time_saved = Option.none)) := by
  refine ⟨update_cached_routes_idem, ?_, ?_⟩
  · intro env envB r h1 h2
    rw [update_one_skip env r h1 h2, update_one_skip envB r h1 h2]
    exact ⟨rfl, rfl⟩
  · intro env r
    rcases update_one_cases env r with h | ⟨t, _, _, h⟩ <;> rw [h] <;> simp

/-- C4 witness: a record with both fields populated is left unchanged by two
different environments. -/
theorem C4_cachefill_monotone_witness :
    r4.optimized_delivery_time ≠ Option.none ∧ r4.time_saved ≠ Option.none ∧
    (update_one env2 r4 = (r4, false) ∧ update_one env2 r4 = update_one env2b r4) :=
  ⟨by simp [r4], by simp [r4],
   C4_cachefill_monotone.2.1 env2 env2b r4 (by simp [r4]) (by simp [r4])⟩

/-- C5: in the summary of a dataset all of whose stored rows satisfy the
admission invariant, the count equals the number of stored rows,
avgCostSaved equals totalCostSaved divided by that count whenever it is
nonzero, both are 0 when the count is 0, and the cost table holds exactly the
rows with an optimized time present while the count still counts every row. -/
theorem C5_summary_average (env : GeoEnv) (stored : List IRoute)
    (hall : ∀ r ∈ stored, 24 < delayOf r) :
    (generate_summary env stored).inefficient_count = stored.length ∧
    ((generate_summary env stored).inefficient_count ≠ 0 →
      (generate_summary env stored).avg_cost_saved
        = (generate_summary env stored).total_cost_saved
          / ((generate_summary env stored).inefficient_count : ℚ)) ∧
    ((generate_summary env stored).inefficient_count = 0 →
      (generate_summary env stored).total_cost_saved = 0 ∧
      (generate_summary env stored).avg_cost_saved = 0) ∧
    (generate_summary env stored).cost_table.length
      = ((update_cached_routes env stored).fst.filter
          (fun r => r.optimized_delivery_time ≠ Option.none)).length := by
  have hroutes : ∀ r ∈ (update_cached_routes env stored).fst, 24 < delayOf r := by
    intro r hr
    rcases List.mem_map.mp hr with ⟨r0, hr0, hreq⟩
    have hk := update_one_keeps env r0
    have hdel : delayOf ((update_one env r0).fst) = delayOf r0 := by
      unfold delayOf
      rw [hk.2.2.2.2.2.1, hk.2.2.2.2.1]
    rw [← hreq, hdel]
    exact hall r0 hr0
  have hfilter : ((update_cached_routes env stored).fst.filter
      (fun r => decide (24 < delayOf r))) = (update_cached_routes env stored).fst := by
    rw [List.filter_eq_self]
    intro r hr
    simp [hroutes r hr]
  have hlen : (update_cached_routes env stored).fst.length = stored.length := by
    unfold update_cached_routes
    simp
  have hcount : (generate_summary env stored).inefficient_count = stored.length := by
    simp only [generate_summary, hfilter]
    exact hlen
  refine ⟨hcount, ?_, ?_, ?_⟩
  · intro hne
    have hne2 : ¬ ((update_cached_routes env stored).fst.filter
        (fun r => decide (24 < delayOf r))).length = 0 := by
      simp only [generate_summary] at hne
      exact hne
    simp only [generate_summary, if_neg hne2]
  · intro hz
    rw [hcount] at hz
    have hnil : stored = [] := List.length_eq_zero.mp hz
    subst hnil
    simp [generate_summary, update_cached_routes]
  · simp only [generate_summary]
    rw [costStep_fold_length]
    simp

/-- C5 witness: the summary of the one-row table storedC5 under the failing
environment. -/
theorem C5_summary_average_witness :
    (∀ r ∈ storedC5, 24 < delayOf r) ∧
    ((generate_summary env0 storedC5).inefficient_count = storedC5.length ∧
     ((generate_summary env0 storedC5).inefficient_count ≠ 0 →
       (generate_summary env0 storedC5).avg_cost_saved
         = (generate_summary env0 storedC5).total_cost_saved
           / ((generate_summary env0 storedC5).inefficient_count : ℚ)) ∧
     ((generate_summary env0 storedC5).inefficient_count = 0 →
       (generate_summary env0 storedC5).total_cost_saved = 0 ∧
       (generate_summary env0 storedC5).avg_cost_saved = 0) ∧
     (generate_summary env0 storedC5).cost_table.length
       = ((update_cached_routes env0 storedC5).fst.filter
           (fun r => r.optimized_delivery_time ≠ Option.none)).length) :=
  ⟨by intro r hr; rw [List.mem_singleton.mp hr]; norm_num [delayOf, storedC5],
   C5_summary_average env0 storedC5
     (by intro r hr; rw [List.mem_singleton.mp hr]; norm_num [delayOf, storedC5])⟩

/-- C6: every route the normalizer emits comes from a row in which every
required cell is non-null and every numeric parse succeeded, and the route
fields are exactly the parsed values: a row with a missing or null required
field or a required field that fails numeric parsing never appears in the
output, and no partial record is ever produced. -/
theorem C6_dropped_rows (input : ExcelInput) (r : Route)
    (hmem : r ∈ (parse_excel input).inefficient_routes) :
    ∃ sheets s row, input = ExcelInput.workbook sheets ∧ s ∈ sheets ∧ row ∈ s.rows ∧
      (∀ c ∈ required_cols, rowGet row c ≠ Cell.null) ∧
      ∃ st exp_h act_h ec ac mc,
        rowGet row "Starting Time" = Cell.time st ∧
        to_float (rowGet row "Expected Delivery Time (hours)") = some exp_h ∧
        to_float (rowGet row "Actual Delivery Time (hours)") = some act_h ∧
        to_float (rowGet row "Expected Delivery Cost (VND)") = some ec ∧
        to_float (rowGet row "Actual Delivery Cost (VND)") = some ac ∧
        to_float (rowGet row "Max Delivery Cost (VND/hr)") = some mc ∧
        r = ⟨pyStr (rowGet row "Base Address"), pyStr (rowGet row "Shipping Address"),
             st, st + exp_h, st + act_h, ec, ac, mc, act_h - exp_h⟩ := by
  rcases parse_excel_mem input r hmem with ⟨sheets, hin, s, hs, row, hrow, hk⟩
  rcases processRow_keep_inv row r hk with
    ⟨hnull, st, e, a, ec, ac, mc, h1, h2, h3, h4, h5, h6, _, h8⟩
  exact ⟨sheets, s, row, hin, hs, hrow, hnull, st, e, a, ec, ac, mc,
    h1, h2, h3, h4, h5, h6, h8⟩

/-- C6 witness: the scenario route of wb1 traces back to a fully valid row. -/
theorem C6_dropped_rows_witness :
    routeA ∈ (parse_excel wb1).inefficient_routes ∧
    (∃ sheets s row, wb1 = ExcelInput.workbook sheets ∧ s ∈ sheets ∧ row ∈ s.rows ∧
      (∀ c ∈ required_cols, rowGet row c ≠ Cell.null) ∧
      ∃ st exp_h act_h ec ac mc,
        rowGet row "Starting Time" = Cell.time st ∧
        to_float (rowGet row "Expected Delivery Time (hours)") = some exp_h ∧
        to_float (rowGet row "Actual Delivery Time (hours)") = some act_h ∧
        to_float (rowGet row "Expected Delivery Cost (VND)") = some ec ∧
        to_float (rowGet row "Actual Delivery Cost (VND)") = some ac ∧
        to_float (rowGet row "Max Delivery Cost (VND/hr)") = some mc ∧
        routeA = ⟨pyStr (rowGet row "Base Address"), pyStr (rowGet row "Shipping Address"),
             st, st + exp_h, st + act_h, ec, ac, mc, act_h - exp_h⟩) :=
  ⟨by rw [parse_wb1]; exact List.mem_singleton.mpr rfl,
   C6_dropped_rows wb1 routeA (by rw [parse_wb1]; exact List.mem_singleton.mpr rfl)⟩

/-- C7 counterexample: a row carrying its delivery times as absolute
datetimes, otherwise fully valid and 28 hours late, is dropped by
parse_excel: its numeric parse of the datetime cells fails, so the claimed
acceptance of both encodings fails for the upload-time normalizer. -/
theorem C7_counterexample :
    rowGet rowT "Expected Delivery Time (hours)" = Cell.time 2 ∧
    rowGet rowT "Actual Delivery Time (hours)" = Cell.time 30 ∧
    (∀ c ∈ required_cols, rowGet rowT c ≠ Cell.null) ∧
    processRow rowT = RowResult.skip ∧
    parse_excel wbT = ⟨[]⟩ := by
  refine ⟨rfl, rfl, ?_, rfl, rfl⟩
  intro c hc hnil
  have h0T : (required_cols.any fun c => rowGet rowT c == Cell.null) = false := rfl
  rw [List.any_eq_false] at h0T
  exact absurd (by simp [hnil] : (rowGet rowT c == Cell.null) = true) (h0T c hc)

/-- C7 amended: for the expected and actual delivery-time fields, the
normalizer accepts only a numeric hour-offset relative to startingTime,
which it resolves as startingTime plus hours; a row whose expected or actual
delivery-time cell holds a native absolute timestamp fails numeric parsing
and is dropped, never producing a normalized record. -/
theorem C7_offset_encoding_only :
    (∀ row st exp_h act_h ec ac mc,
       (required_cols.any fun c => rowGet row c == Cell.null) = false →
       rowGet row "Starting Time" = Cell.time st →
       to_float (rowGet row "Expected Delivery Time (hours)") = some exp_h →
       to_float (rowGet row "Actual Delivery Time (hours)") = some act_h →
       to_float (rowGet row "Expected Delivery Cost (VND)") = some ec →
       to_float (rowGet row "Actual Delivery Cost (VND)") = some ac →
       to_float (rowGet row "Max Delivery Cost (VND/hr)") = some mc →
       24 < act_h - exp_h →
       processRow row = RowResult.keep
         ⟨pyStr (rowGet row "Base Address"), pyStr (rowGet row "Shipping Address"),
          st, st + exp_h, st + act_h, ec, ac, mc, act_h - exp_h⟩) ∧
    (∀ row T, rowGet row "Expected Delivery Time (hours)" = Cell.time T →
       processRow row = RowResult.skip) ∧
    (∀ row T, rowGet row "Actual Delivery Time (hours)" = Cell.time T →
       processRow row = RowResult.skip) := by
  refine ⟨?_, ?_, ?_⟩
  · intro row st exp_h act_h ec ac mc hnull hst hexp hact hec hac hmc hlt
    unfold processRow
    rw [hnull]
    simp only [Bool.false_eq_true, if_false]
    rw [hexp, hact]
    simp only []
    rw [if_pos hlt, hst]
    simp only []
    rw [hec, hac, hmc]
  · intro row T hT
    unfold processRow
    by_cases hnull : (required_cols.any fun c => rowGet row c == Cell.null) = true
    · rw [if_pos hnull]
    · rw [if_neg hnull, hT]
      simp only [to_float]
  · intro row T hT
    unfold processRow
    by_cases hnull : (required_cols.any fun c => rowGet row c == Cell.null) = true
    · rw [if_pos hnull]
    · rw [if_neg hnull, hT]
      cases h1 : to_float (rowGet row "Expected Delivery Time (hours)") with
      | none => simp only [to_float]
      | some e => simp only [to_float]

/-- C7 witness: the offset-encoded scenario row is kept with its times
resolved as startingTime plus hours, and the same row with a
timestamp-encoded expected delivery cell is dropped. -/
theorem C7_offset_encoding_only_witness :
    (required_cols.any fun c => rowGet rowA c == Cell.null) = false ∧
    rowGet rowA "Starting Time" = Cell.time 0 ∧
    to_float (rowGet rowA "Expected Delivery Time (hours)") = some 2 ∧
    to_float (rowGet rowA "Actual Delivery Time (hours)") = some 30 ∧
    (24:ℚ) < 30 - 2 ∧
    processRow rowA = RowResult.keep
      ⟨pyStr (rowGet rowA "Base Address"), pyStr (rowGet rowA "Shipping Address"),
       0, 0 + 2, 0 + 30, 100000, 400000, 20000, 30 - 2⟩ ∧
    rowGet rowT "Expected Delivery Time (hours)" = Cell.time 2 ∧
    processRow rowT = RowResult.skip :=
  ⟨rfl, rfl, rfl, rfl, by norm_num,
   C7_offset_encoding_only.1 rowA 0 2 30 100000 400000 20000 rfl rfl rfl rfl rfl rfl rfl
     (by norm_num),
   rfl,
   C7_offset_encoding_only.2.1 rowT 2 rfl⟩

/-- C8: the cache-fill pass processes every record independently, so one
record is never affected by another; a record whose external lookup fails
is left unchanged with no update flagged; and every failure shape of the
external calls, a raised request, a non-200 status or a payload whose json
parse raises, yields None rather than an exception, at both the geocode and
the routing step. -/
theorem C8_external_failure_isolated :
    (∀ env routes, (update_cached_routes env routes).fst
        = routes.map (fun r => (update_one env r).fst)) ∧
    (∀ env (r : IRoute),
       (get_optimized_route_time (env.geo r.base_address)
         (env.geo r.shipping_address) env.route).result = Option.none →
       update_one env r = (r, false)) ∧
    get_coordinates GeoResp.netErr = Option.none ∧
    (∀ s b, s ≠ 200 → get_coordinates (GeoResp.resp s b) = Option.none) ∧
    (∀ s, get_coordinates (GeoResp.resp s Option.none) = Option.none) ∧
    (∀ g2 ro, (get_optimized_route_time GeoResp.netErr g2 ro).result = Option.none ∧
       (get_optimized_route_time GeoResp.netErr g2 ro).routingCall = Option.none) ∧
    parseRouteResp RouteResp.netErr = Option.none ∧
    (∀ s b, s ≠ 200 → parseRouteResp (RouteResp.resp s b) = Option.none) ∧
    (∀ s, parseRouteResp (RouteResp.resp s Option.none) = Option.none) := by
  refine ⟨fun env routes => rfl, ?_, rfl, ?_, ?_, fun g2 ro => ⟨rfl, rfl⟩, rfl, ?_, ?_⟩
  · intro env r hres
    unfold update_one
    by_cases hc : r.optimized_delivery_time = Option.none ∨ r.time_saved = Option.none
    · rw [if_pos hc, hres]
    · rw [if_neg hc]
  · intro s b hs
    simp [get_coordinates, hs]
  · intro s
    by_cases hs : s = 200 <;> simp [get_coordinates, hs]
  · intro s b hs
    simp [parseRouteResp, hs]
  · intro s
    by_cases hs : s = 200 <;> simp [parseRouteResp, hs]

/-- C8 witness: under the all-failing environment the fresh record r8 is left
unchanged and no update is flagged. -/
theorem C8_external_failure_isolated_witness :
    (get_optimized_route_time (env0.geo r8.base_address)
      (env0.geo r8.shipping_address) env0.route).result = Option.none ∧
    update_one env0 r8 = (r8, false) :=
  ⟨rfl, C8_external_failure_isolated.2.1 env0 r8 rfl⟩

/-- C9: when the cache-fill step commits, it stores the optimized time and
the saving rounded to two decimal places; consequently there is an input,
actual duration 10.004 hours with optimized time 1 hour, where the persisted
time_saved of 9.0 differs from the exact difference of the actual duration
and the persisted optimized time, 9.004, by 0.004, which is within 0.005. -/
theorem C9_two_decimal_rounding :
    (∀ env (r : IRoute) t,
       (r.optimized_delivery_time = Option.none ∨ r.time_saved = Option.none) →
       (get_optimized_route_time (env.geo r.base_address)
         (env.geo r.shipping_address) env.route).result = some t →
       t < r.actual_delivery_time - r.starting_time →
       (update_one env r).fst.optimized_delivery_time = some (pyround2 t) ∧
       (update_one env r).fst.time_saved
         = some (pyround2 (r.actual_delivery_time - r.starting_time - t))) ∧
    ((update_one env9 r9).fst.optimized_delivery_time = some 1 ∧
     (update_one env9 r9).fst.time_saved = some 9 ∧
     (9 : ℚ) ≠ r9.actual_delivery_time - r9.starting_time - 1 ∧
     |9 - (r9.actual_delivery_time - r9.starting_time - 1)| ≤ 1/200) := by
  constructor
  · intro env r t hproc hsucc hlt
    rw [(update_one_commit env r t hproc hsucc).1 hlt]
    exact ⟨rfl, rfl⟩
  · refine ⟨by rw [update_r9], by rw [update_r9], by norm_num [r9], ?_⟩
    have hd : (9:ℚ) - (r9.actual_delivery_time - r9.starting_time - 1) = -(1/250) := by
      norm_num [r9]
    rw [hd, abs_neg, abs_of_pos (by norm_num : (0:ℚ) < 1/250)]
    norm_num

/-- C9 witness: the rounding rule applied to r9 under env9, where the
committed fields are round(1, 2) = 1 and round(9.004, 2) = 9. -/
theorem C9_two_decimal_rounding_witness :
    (r9.optimized_delivery_time = Option.none ∨ r9.time_saved = Option.none) ∧
    (get_optimized_route_time (env9.geo r9.base_address)
      (env9.geo r9.shipping_address) env9.route).result = some 1 ∧
    (1:ℚ) < r9.actual_delivery_time - r9.starting_time ∧
    ((update_one env9 r9).fst.optimized_delivery_time = some (pyround2 1) ∧
     (update_one env9 r9).fst.time_saved
       = some (pyround2 (r9.actual_delivery_time - r9.starting_time - 1))) :=
  ⟨Or.inl rfl, opt_env9, by norm_num [r9],
   C9_two_decimal_rounding.1 env9 r9 1 (Or.inl rfl) opt_env9 (by norm_num [r9])⟩

/-- C10: a 200 geocode response with a nonempty results list whose first
entry lacks the lat key makes get_coordinates return a pair containing None
instead of the failure value None, and get_optimized_route_time treats that
pair as valid coordinates: it issues the routing request with it and returns
its parsed result. -/
theorem C10_none_coordinates :
    get_coordinates gNoLat = some (Option.none, some 5) ∧
    get_coordinates gNoLat ≠ Option.none ∧
    (get_optimized_route_time gNoLat gOk roAny).routingCall
      = some ((Option.none, some 5), (some 1, some 2)) ∧
    (get_optimized_route_time gNoLat gOk roAny).result = some 2 := by
  refine ⟨rfl, by simp [get_coordinates, gNoLat], rfl, ?_⟩
  simp only [get_optimized_route_time, get_coordinates, gNoLat, gOk, roAny, parseRouteResp]
  norm_num

end RetroTrack
